import Mathlib

/-!
Verification development for the agentic-mcp repository: a shallow embedding
of the MCP daemon (src/daemon.ts), the progressive MCP client (src/client.ts),
the socket utilities (src/socket.ts, src/socket-client.ts) and the legacy
daemon transports (src/daemon/src/transports/stdio.ts, sse.ts), together with
theorems settling the specification claims about them.

Conventions of the embedding:
- JS Maps keyed by strings become association lists (insertion order kept);
  Map.get is find? on the key, Map.set after delete appends at the end,
  Map.delete is a filter, exactly as the daemon code performs them.
- Timestamps (Date.now(), getTime()) are natural-number milliseconds; where
  the source subtracts possibly-unordered timestamps the difference is taken
  in Int, matching JS number subtraction.
- Thrown exceptions become Except.error carrying the message string; the
  socket handler catch block that converts them to error responses is
  embedded explicitly (processLine).
- Opaque JSON payloads (inputSchema, capability records, tool-call results)
  are carried as opaque String values: the source never inspects them.
-/

/-- Transport configuration record, from MCPServerConfig in src/types.ts.
Record-valued fields (headers, env) are association lists of strings. -/
structure MCPServerConfig where
  type : Option String := none
  url : Option String := none
  headers : Option (List (String × String)) := none
  command : Option String := none
  args : Option (List String) := none
  env : Option (List (String × String)) := none
  description : Option String := none
deriving DecidableEq, Repr

/-- Server metadata cached at handshake, from MCPServerMetadata in src/types.ts.
The capabilities record is opaque to the daemon and kept as an association list. -/
structure MCPServerMetadata where
  name : String
  version : String
  description : Option String := none
  capabilities : List (String × String) := []
deriving DecidableEq, Repr

/-- One entry of the tool catalog cached by ProgressiveMCPClient.connect
(the _toolsCache field in src/client.ts): name, description and the opaque
inputSchema record. -/
structure ToolCacheEntry where
  name : String
  description : String
  inputSchema : String
deriving DecidableEq, Repr

/-- Layer-2 view of a tool, from MCPToolInfo in src/types.ts: name and
description only, the type has no input-schema field. -/
structure MCPToolInfo where
  name : String
  description : String
deriving DecidableEq, Repr

/-- Layer-3 view of a tool, from MCPToolSchema in src/types.ts. -/
structure MCPToolSchema where
  name : String
  description : String
  inputSchema : String
deriving DecidableEq, Repr

/-- State of one ProgressiveMCPClient (src/client.ts): connected is
(transport !== null), plus the cached metadata and tool catalog. -/
structure ClientState where
  connected : Bool
  metadata : Option MCPServerMetadata
  toolsCache : List ToolCacheEntry
deriving DecidableEq, Repr

/-- The not-connected error message thrown by every cache accessor of
ProgressiveMCPClient. -/
def notConnectedMsg : String := "Not connected to server, please call connect() first"

/-- ProgressiveMCPClient.listTools (src/client.ts): throws when not connected,
otherwise projects the cached catalog to name and description only. -/
def listTools (st : ClientState) : Except String (List MCPToolInfo) :=
  if st.connected then
    .ok (st.toolsCache.map (fun t => { name := t.name, description := t.description }))
  else
    .error notConnectedMsg

/-- ProgressiveMCPClient.getToolSchema (src/client.ts): throws when not
connected; otherwise finds the tool in the cached catalog and returns its
full record, or throws the tool-not-found message. -/
def getToolSchema (st : ClientState) (toolName : String) : Except String MCPToolSchema :=
  if st.connected then
    match st.toolsCache.find? (fun t => t.name == toolName) with
    | none => .error ("Tool not found: " ++ toolName)
    | some t => .ok { name := t.name, description := t.description, inputSchema := t.inputSchema }
  else
    .error notConnectedMsg

/-- ProgressiveMCPClient.callTool (src/client.ts): throws when not connected,
otherwise forwards the call live; the provider outcome is supplied by the
environment oracle. -/
def callTool (st : ClientState) (outcome : Except String String) : Except String String :=
  if st.connected then outcome else .error notConnectedMsg

/-- ProgressiveMCPClient.getCachedMetadata (src/client.ts). -/
def getCachedMetadata (st : ClientState) : Option MCPServerMetadata :=
  st.metadata

/-- SessionInfo record of the daemon (src/daemon.ts): session id, server
name, client state and the two activity timestamps. -/
structure SessionInfo where
  id : String
  server : String
  client : ClientState
  createdAt : Nat
  lastActivityAt : Nat
deriving DecidableEq, Repr

/-- Association-list lookup modelling Map.get on a string-keyed JS Map. -/
def lookupAssoc {β : Type} (l : List (String × β)) (k : String) : Option β :=
  (l.find? (fun p => p.1 == k)).map Prod.snd

/-- Daemon state (the MCPDaemon fields of src/daemon.ts that the socket
handler reads and writes): the session map, the loaded server configs and
the daemon session-group name. -/
structure DaemonState where
  sessions : List (String × SessionInfo)
  serverConfigs : List (String × MCPServerConfig)
  session : String
deriving DecidableEq, Repr

/-- Socket command record (src/daemon.ts handleSocketRequest destructuring).
Every field may be absent on the wire, hence Option. -/
structure SocketRequest where
  id : Option String := none
  action : Option String := none
  server : Option String := none
  tool : Option String := none
deriving DecidableEq, Repr

/-- Payloads the daemon puts in the data field of a socket response. -/
inductive SockData where
  | pingData (status : String) (session : String) (servers : List String)
  | reloadData (message : String) (reconnected : List String)
  | shutdownData (message : String)
  | metadataData (m : MCPServerMetadata)
  | toolsData (tools : List MCPToolInfo)
  | schemaData (s : MCPToolSchema)
  | callData (result : String)
  | healthData (status : String) (server : String) (connectedAt : Nat) (uptime : Int)
  | sessionsData (entries : List (String × String × Nat × Int))
deriving DecidableEq, Repr

/-- Socket response record (src/daemon.ts): id echoed (null when absent),
success flag, optional data and optional error message. -/
structure SocketResponse where
  id : Option String := none
  success : Bool
  data : Option SockData := none
  error : Option String := none
deriving DecidableEq, Repr

/-- Environment oracle for one handleSocketRequest step: the outcome of
loadServerConfigs on reload, the outcome of each client connect attempted by
reconnectServers, the provider outcome for tool calls, and the current time. -/
structure DaemonEnv where
  loadResult : Except String (List (String × MCPServerConfig))
  connectResult : String → Option ClientState
  callResult : String → String → Except String String
  now : Nat

/-- A session freshly built by reconnectServers or preconnectServers when a
connect succeeds: id and server are the name, both timestamps are new Date(). -/
def mkFreshSession (serverName : String) (client : ClientState) (now : Nat) : SessionInfo :=
  { id := serverName, server := serverName, client := client,
    createdAt := now, lastActivityAt := now }

/-- One iteration of the reconnectServers loop (src/daemon.ts): disconnect
and delete any existing session for the name, then connect; on success set
the fresh session (appended, Map.set after delete) and record the name. -/
def reconnectStep (connectResult : String → Option ClientState) (now : Nat)
    (acc : List (String × SessionInfo) × List String) (serverName : String) :
    List (String × SessionInfo) × List String :=
  let remaining := acc.1.filter (fun p => !(p.1 == serverName))
  match connectResult serverName with
  | some client =>
      (remaining ++ [(serverName, mkFreshSession serverName client now)], acc.2 ++ [serverName])
  | none => (remaining, acc.2)

/-- MCPDaemon.reconnectServers (src/daemon.ts): iterate over the names of
the (just reloaded) server configs; returns the new session map and the list
of successfully reconnected names. -/
def reconnectServers (sessions : List (String × SessionInfo)) (configKeys : List String)
    (connectResult : String → Option ClientState) (now : Nat) :
    List (String × SessionInfo) × List String :=
  configKeys.foldl (reconnectStep connectResult now) (sessions, [])

/-- MCPDaemon.getServerConfig (src/daemon.ts): unknown names raise an error
enumerating Object.keys(serverConfigs), joined with a comma, or (none) when
the join is the empty string. -/
def getServerConfig (configs : List (String × MCPServerConfig)) (server : String) :
    Except String MCPServerConfig :=
  match lookupAssoc configs server with
  | none =>
      let joined := String.intercalate ", " (configs.map Prod.fst)
      .error ("Unknown MCP server: " ++ server ++ "\n" ++
        "Available servers: " ++ (if joined = "" then "(none)" else joined))
  | some cfg => .ok cfg

/-- Map-value update in place, modelling mutation of the SessionInfo object
held in the sessions map (session.lastActivityAt = new Date()). -/
def updateSession (sessions : List (String × SessionInfo)) (key : String) (s : SessionInfo) :
    List (String × SessionInfo) :=
  sessions.map (fun p => if p.1 == key then (p.1, s) else p)

/-- JS template interpolation of a possibly-undefined string. -/
def jsShow (o : Option String) : String := o.getD "undefined"

/-- MCPDaemon.handleSocketRequest (src/daemon.ts), one request against one
daemon state. Except.error in the first component is an exception escaping
the handler (to be caught by the connection handler); Except.ok is the
response it returns itself. The schema and call guards mirror the JS falsy
test if (!tool): a tool field that is absent OR the empty string hits the
Tool-name-is-required branch. -/
def handleSocketRequest (d : DaemonState) (env : DaemonEnv) (req : SocketRequest) :
    Except String SocketResponse × DaemonState :=
  if req.action = some "ping" then
    (.ok { id := req.id, success := true,
           data := some (.pingData "ok" d.session (d.sessions.map Prod.fst)) }, d)
  else if req.action = some "reload" then
    match env.loadResult with
    | .error m => (.error m, d)
    | .ok configs =>
        let r := reconnectServers d.sessions (configs.map Prod.fst) env.connectResult env.now
        (.ok { id := req.id, success := true,
               data := some (.reloadData "Configuration reloaded" r.2) },
         { d with serverConfigs := configs, sessions := r.1 })
  else if req.action = some "shutdown" then
    (.ok { id := req.id, success := true, data := some (.shutdownData "Daemon shutdown") }, d)
  else
    match req.server.bind (lookupAssoc d.sessions) with
    | none =>
        (.ok { id := req.id, success := false,
               error := some ("Server '" ++ jsShow req.server ++ "' not found or not connected") }, d)
    | some sess0 =>
        let sess := { sess0 with lastActivityAt := env.now }
        let d := { d with sessions := updateSession d.sessions sess0.id sess }
        if req.action = some "metadata" then
          match getCachedMetadata sess.client with
          | none => (.ok { id := req.id, success := false, error := some "Metadata not available" }, d)
          | some m => (.ok { id := req.id, success := true, data := some (.metadataData m) }, d)
        else if req.action = some "list" then
          match listTools sess.client with
          | .error e => (.error e, d)
          | .ok ts => (.ok { id := req.id, success := true, data := some (.toolsData ts) }, d)
        else if req.action = some "schema" then
          match req.tool with
          | none => (.ok { id := req.id, success := false,
                           error := some "Tool name is required for schema" }, d)
          | some t =>
              if t = "" then
                (.ok { id := req.id, success := false,
                       error := some "Tool name is required for schema" }, d)
              else
                match getToolSchema sess.client t with
                | .error _ => (.ok { id := req.id, success := false,
                                     error := some ("Tool '" ++ t ++ "' not found") }, d)
                | .ok sch => (.ok { id := req.id, success := true, data := some (.schemaData sch) }, d)
        else if req.action = some "call" then
          match req.tool with
          | none => (.ok { id := req.id, success := false,
                           error := some "Tool name is required for call" }, d)
          | some t =>
              if t = "" then
                (.ok { id := req.id, success := false,
                       error := some "Tool name is required for call" }, d)
              else
                match callTool sess.client (env.callResult sess.server t) with
                | .error e => (.error e, d)
                | .ok r => (.ok { id := req.id, success := true, data := some (.callData r) }, d)
        else if req.action = some "health" then
          (.ok { id := req.id, success := true,
                 data := some (.healthData "healthy" (jsShow req.server) sess.createdAt
                   (((env.now : Int) - (sess.createdAt : Int)).fdiv 1000)) }, d)
        else if req.action = some "sessions" then
          (.ok { id := req.id, success := true,
                 data := some (.sessionsData (d.sessions.map (fun p =>
                   (p.2.id, p.2.server, p.2.createdAt,
                    ((env.now : Int) - (p.2.createdAt : Int)).fdiv 1000)))) }, d)
        else
          (.ok { id := req.id, success := false,
                 error := some ("Unknown action: " ++ jsShow req.action) }, d)

/-- Classification of one newline-delimited line received by the socket
connection handler (src/daemon.ts handleSocketConnection): blank after trim,
a line JSON.parse rejects (carrying the parse-error message), or a line that
parses to a request record. -/
inductive WireLine where
  | blank
  | malformed (errMsg : String)
  | wellFormed (req : SocketRequest)
deriving DecidableEq, Repr

/-- The id the catch block echoes: request?.id || null, so an absent or
empty (falsy) id becomes null. -/
def jsIdOrNull (o : Option String) : Option String :=
  match o with
  | some s => if s = "" then none else some s
  | none => none

/-- Processing of one complete line inside handleSocketConnection
(src/daemon.ts): blank lines are skipped with no write; a line JSON.parse
rejects lands in the catch block, which writes an error response with id
null; a parsed request is dispatched, and an exception from the handler is
converted by the same catch block into an error response echoing the id. -/
def processLine (d : DaemonState) (env : DaemonEnv) (l : WireLine) :
    Option SocketResponse × DaemonState :=
  match l with
  | .blank => (none, d)
  | .malformed errMsg =>
      (some { id := none, success := false, error := some errMsg }, d)
  | .wellFormed req =>
      match handleSocketRequest d env req with
      | (.ok resp, d2) => (some resp, d2)
      | (.error m, d2) =>
          (some { id := jsIdOrNull req.id, success := false, error := some m }, d2)

/-- Processing of a sequence of complete lines on one connection: each line
yields at most one written response; the connection is never closed by the
handler, so later lines are processed from the state the earlier ones left. -/
def processLines (env : DaemonEnv) : DaemonState → List WireLine →
    List SocketResponse × DaemonState
  | d, [] => ([], d)
  | d, l :: ls =>
      match processLine d env l with
      | (none, d2) => processLines env d2 ls
      | (some r, d2) =>
          let rest := processLines env d2 ls
          (r :: rest.1, rest.2)

/-- Idle threshold of cleanupIdleSessions (src/daemon.ts): 30 minutes in
milliseconds. -/
def IDLE_TIMEOUT : Nat := 30 * 60 * 1000

/-- Interval of startSessionCleanupTimer (src/daemon.ts): the sweep runs
every 5 minutes. -/
def CLEANUP_INTERVAL_MS : Nat := 5 * 60 * 1000

/-- The skip test of cleanupIdleSessions: a session whose server name has an
entry in the current serverConfigs is statically configured and exempt. -/
def isConfigured (configs : List (String × MCPServerConfig)) (server : String) : Bool :=
  (lookupAssoc configs server).isSome

/-- The keep test of one cleanupIdleSessions iteration: configured sessions
are kept; a dynamic session is kept unless now minus lastActivityAt exceeds
IDLE_TIMEOUT strictly (the subtraction is JS number subtraction, taken in
Int). -/
def keepSession (configs : List (String × MCPServerConfig)) (now : Nat)
    (p : String × SessionInfo) : Bool :=
  isConfigured configs p.2.server ||
    !(decide ((IDLE_TIMEOUT : Int) < (now : Int) - (p.2.lastActivityAt : Int)))

/-- MCPDaemon.cleanupIdleSessions (src/daemon.ts): returns the sessions map
after the sweep together with the entries that were disconnected and
deleted. -/
def cleanupIdleSessions (configs : List (String × MCPServerConfig))
    (sessions : List (String × SessionInfo)) (now : Nat) :
    List (String × SessionInfo) × List (String × SessionInfo) :=
  (sessions.filter (keepSession configs now),
   sessions.filter (fun p => !(keepSession configs now p)))

/-- ToInt32 of JS: wrap an integer to the signed 32-bit range, as the |0
coercion and the shift operands do. -/
def jsToInt32 (x : Int) : Int := (x + 2 ^ 31) % 2 ^ 32 - 2 ^ 31

/-- One iteration of the session-name hash loop (getPortForSession in
src/socket.ts): hash = (hash << 5) - hash + charCode, then hash |= 0.
The shift acts on the 32-bit value, the sum is exact, |0 wraps. -/
def hashStep (h : Int) (c : Nat) : Int := jsToInt32 (jsToInt32 (h * 32) - h + c)

/-- UTF-16 code units of one character, as String.prototype.charCodeAt
enumerates them: BMP characters are themselves, others a surrogate pair. -/
def charUnits (c : Char) : List Nat :=
  let n := c.toNat
  if n < 0x10000 then [n]
  else [0xD800 + (n - 0x10000) / 0x400, 0xDC00 + (n - 0x10000) % 0x400]

/-- UTF-16 code-unit sequence of a string. -/
def codeUnits (s : String) : List Nat := (s.data.map charUnits).flatten

/-- The session-name hash of getPortForSession (src/socket.ts): fold of
hashStep over the code units starting from 0. -/
def sessionHash (s : String) : Int := (codeUnits s).foldl hashStep 0

/-- getPortForSession of src/socket.ts (daemon side): 49152 plus the
absolute value of the hash modulo 16383. -/
def getPortForSession (session : String) : Nat :=
  49152 + (sessionHash session).natAbs % 16383

/-- getPortForSession of src/socket-client.ts (caller side): a verbatim copy
of the daemon-side function. -/
def getPortForSessionClient (session : String) : Nat :=
  49152 + (sessionHash session).natAbs % 16383

/-- State of one SocketClient (src/socket-client.ts): the connected flag,
whether the socket field is non-null, and the request-id counter. -/
structure SCState where
  connected : Bool
  hasSocket : Bool
  requestId : Nat
deriving DecidableEq, Repr

/-- Outcome of one connection attempt, as the environment decides it: the
connect event fires, the error event fires with a message, or the 5s
connection timer fires first. -/
inductive ConnectOutcome where
  | success
  | errorEvent (msg : String)
  | timedOut
deriving DecidableEq, Repr

/-- SocketClient.connect (src/socket-client.ts): resolves at once when
already connected; otherwise resolves on the connect event (setting the
socket and the flag) or rejects with the wrapped error event message or the
connection-timeout message. -/
def clientConnect (st : SCState) (out : ConnectOutcome) : Except String SCState :=
  if st.connected then .ok st
  else
    match out with
    | .success => .ok { st with connected := true, hasSocket := true }
    | .errorEvent m => .error ("Failed to connect to daemon: " ++ m)
    | .timedOut => .error "Connection timeout"

/-- Result of SocketClient.send: the command was written and is pending
under the given id, the implicit connect rejected, the write callback
reported an error, or the non-null assertion on the socket field failed. -/
inductive SendOutcome where
  | pendingSent (id : String)
  | failedConnect (msg : String)
  | writeFailed (msg : String)
  | crashedNullSocket
deriving DecidableEq, Repr

/-- The write phase of SocketClient.send: increments the id counter, writes
the framed command (recorded in the transmitted list) and either registers
the pending entry or rejects with the write-callback error. -/
def clientTransmit (st : SCState) (writeErr : Option String) :
    SendOutcome × SCState × List String :=
  let i := st.requestId + 1
  let st2 := { st with requestId := i }
  match writeErr with
  | some m => (.writeFailed m, st2, [toString i])
  | none => (.pendingSent (toString i), st2, [toString i])

/-- SocketClient.send (src/socket-client.ts): when not connected or the
socket field is null it first awaits connect(); a connect rejection
propagates out of send before anything is written; otherwise the command is
written on the (now present) socket. The third component lists the ids of
commands actually written. -/
def clientSend (st : SCState) (out : ConnectOutcome) (writeErr : Option String) :
    SendOutcome × SCState × List String :=
  if !st.connected || !st.hasSocket then
    match clientConnect st out with
    | .error m => (.failedConnect m, st, [])
    | .ok st2 =>
        if st2.hasSocket then clientTransmit st2 writeErr
        else (.crashedNullSocket, st2, [])
  else clientTransmit st writeErr

/-- Status of one in-flight JSON-RPC call on a legacy daemon transport
(src/daemon/src/transports/stdio.ts, sse.ts): the pendingRequests entry is
live, or the call settled with a result or a rejection message. -/
inductive CallStatus where
  | pending
  | resolved (v : String)
  | rejected (msg : String)
deriving DecidableEq, Repr

/-- Operational state of one legacy transport: the requestId counter, the
status of every call issued so far (keyed by id), the timeout timers
scheduled and not yet fired (absolute deadline, call id), and the clock. -/
structure WireState where
  requestId : Nat
  calls : List (Nat × CallStatus)
  timers : List (Nat × Nat)
  now : Nat
deriving DecidableEq, Repr

/-- Status lookup by call id. -/
def getStatus (s : WireState) (i : Nat) : Option CallStatus :=
  (s.calls.find? (fun p => p.1 == i)).map Prod.snd

/-- Overwrite the status of call i. -/
def setStatus (calls : List (Nat × CallStatus)) (i : Nat) (st : CallStatus) :
    List (Nat × CallStatus) :=
  calls.map (fun p => if p.1 == i then (p.1, st) else p)

/-- The default request deadline of SseTransport (src/daemon/src/transports/
sse.ts constructor): 30000 milliseconds. -/
def DEFAULT_SSE_TIMEOUT : Nat := 30000

/-- StdioTransport.sendRequest (src/daemon/src/transports/stdio.ts): takes
the next integer id, registers the pending entry, writes the framed request.
No timer of any kind is scheduled. -/
def sendRequestStdio (s : WireState) : WireState × Nat :=
  let i := s.requestId + 1
  ({ s with requestId := i, calls := s.calls ++ [(i, .pending)] }, i)

/-- SseTransport.sendRequest (src/daemon/src/transports/sse.ts): takes the
next integer id, registers the pending entry, posts the request, and
schedules a timer at the configured deadline (default 30000 ms) that will
reject the call with a timeout if it is still pending. -/
def sendRequestSse (timeoutCfg : Option Nat) (s : WireState) : WireState × Nat :=
  let t := timeoutCfg.getD DEFAULT_SSE_TIMEOUT
  let i := s.requestId + 1
  let s2 := { s with
              requestId := i
              calls := s.calls ++ [(i, CallStatus.pending)]
              timers := s.timers ++ [(s.now + t, i)] }
  (s2, i)

/-- handleResponse of both legacy transports: a response whose id matches no
live pendingRequests entry is discarded; a matching one settles the call
with its result, or with the wrapped RPC error message. -/
def deliverResponse (s : WireState) (i : Nat) (body : Except (Int × String) String) :
    WireState :=
  if getStatus s i = some .pending then
    match body with
    | .ok v => { s with calls := setStatus s.calls i (.resolved v) }
    | .error e =>
        let msg := "RPC error " ++ toString e.1 ++ ": " ++ e.2
        { s with calls := setStatus s.calls i (.rejected msg) }
  else s

/-- The timeout-timer callback of SseTransport.sendRequest: when it fires it
rejects the call with the request-timeout message only if the
pendingRequests entry is still live. -/
def fireTimer (s : WireState) (timer : Nat × Nat) : WireState :=
  if getStatus s timer.2 = some .pending then
    { s with calls := setStatus s.calls timer.2 (.rejected "Request timeout") }
  else s

/-- Let t milliseconds elapse: every scheduled timer whose deadline falls in
the window fires, the rest stay scheduled. -/
def advanceTime (s : WireState) (t : Nat) : WireState :=
  let due := s.timers.filter (fun p => p.1 ≤ s.now + t)
  let rest := s.timers.filter (fun p => !(p.1 ≤ s.now + t))
  { due.foldl fireTimer s with timers := rest, now := s.now + t }

/-- The exit handler StdioTransport.connect installs on the child: on
process exit every live pending call is rejected with the disconnected
message and the map is cleared. -/
def processExit (s : WireState) : WireState :=
  { s with calls := s.calls.map (fun p =>
      match p.2 with
      | .pending => (p.1, CallStatus.rejected "Process disconnected")
      | _ => p) }

/-- A supervised child process of StdioTransport: its pid and whether a kill
signal already terminated it. -/
structure ChildProc where
  pid : Nat
  killed : Bool
deriving DecidableEq, Repr

/-- Signals StdioTransport.disconnect can send. -/
inductive Sig where
  | sigterm
  | sigkill
  | killDefault
deriving DecidableEq, Repr

/-- The process field of one StdioTransport. -/
structure StdioProcState where
  process : Option ChildProc
deriving DecidableEq, Repr

/-- What StdioTransport.disconnect (src/daemon/src/transports/stdio.ts)
does synchronously: on a live process send SIGTERM (or the default kill on
Windows), schedule the 2000 ms force-kill timer, then immediately clear the
process field. Returns the post state, the signals sent now, and the delay
of the scheduled timer if one was scheduled. -/
def disconnectStdio (isWin : Bool) (s : StdioProcState) :
    StdioProcState × List (Nat × Sig) × Option Nat :=
  match s.process with
  | some p =>
      let sig := if isWin then Sig.killDefault else Sig.sigterm
      ({ process := none }, [(p.pid, sig)], some 2000)
  | none => (s, [], none)

/-- The force-kill timer callback of StdioTransport.disconnect: it reads the
process field of the transport at fire time and sends SIGKILL only when that
field holds a process that is not yet killed. -/
def disconnectTimerCallback (s : StdioProcState) : List (Nat × Sig) :=
  match s.process with
  | some p => if !p.killed then [(p.pid, Sig.sigkill)] else []
  | none => []

/-- The channel field of one SseTransport: whether the EventSource is
present. -/
structure SseChanState where
  eventSourceOpen : Bool
deriving DecidableEq, Repr

/-- SseTransport.disconnect (src/daemon/src/transports/sse.ts): close the
EventSource, null the field, clear the pending map. -/
def disconnectSse (_s : SseChanState) : SseChanState :=
  { eventSourceOpen := false }

/-- Character-list version of startsWith, used to state substring facts
about the daemon error messages. -/
def listStartsWith : List Char → List Char → Bool
  | _, [] => true
  | [], _ :: _ => false
  | a :: as, b :: bs => a == b && listStartsWith as bs

/-- Whether sub occurs as a contiguous substring of s. -/
def containsSub (s sub : String) : Bool :=
  (List.range (s.data.length + 1)).any (fun i => listStartsWith (s.data.drop i) sub.data)

/-- Wire-level state of one ProgressiveMCPClient (src/client.ts lines
251-289): its sendRequest does not use a pending map — it installs nested
one-shot onmessage wrappers on the shared transport. handlerStack lists the
ids of the wrappers currently installed, outermost (the active handler)
first; beneath the stack sits the original SDK handler. calls records the
status of every call issued. Ids are JS numbers Date.now() + Math.random(),
modelled as rationals; the source schedules no timer of any kind here. -/
structure PClientWireState where
  handlerStack : List Rat
  calls : List (Rat × CallStatus)
deriving DecidableEq, Repr

/-- Status overwrite for rational call ids (the client-side analogue of
setStatus). -/
def setStatusQ (calls : List (Rat × CallStatus)) (i : Rat) (st : CallStatus) :
    List (Rat × CallStatus) :=
  calls.map (fun p => if p.1 == i then (p.1, st) else p)

/-- Status lookup by rational call id. -/
def getStatusQ (s : PClientWireState) (i : Rat) : Option CallStatus :=
  (s.calls.find? (fun p => p.1 == i)).map Prod.snd

/-- ProgressiveMCPClient.sendRequest (src/client.ts): generates the id
Date.now() + Math.random() (nowMs and rand supplied by the environment),
saves the current onmessage handler and installs a one-shot wrapper for
this id, and leaves the call pending. No deadline is armed. -/
def sendRequestClient (s : PClientWireState) (nowMs rand : Rat) :
    PClientWireState × Rat :=
  let i := nowMs + rand
  ({ handlerStack := i :: s.handlerStack, calls := s.calls ++ [(i, .pending)] }, i)

/-- Delivery of one transport message to the client: only the outermost
wrapper runs; when the message id equals its id it restores the saved
handler (pops itself) and settles its call with the result or the wrapped
error; on any other id it does nothing at all — the message is not
forwarded to the saved handler, so inner pending calls never see it. -/
def deliverClientMessage (s : PClientWireState) (msgId : Rat)
    (body : Except String String) : PClientWireState :=
  match s.handlerStack with
  | [] => s
  | topId :: rest =>
      if msgId == topId then
        { handlerStack := rest,
          calls := setStatusQ s.calls topId
            (match body with
             | .ok v => .resolved v
             | .error e => .rejected e) }
      else s

/-- The catch branch of transport.send in ProgressiveMCPClient.sendRequest:
restore onmessage to the handler saved at this call's install time — which
discards this wrapper and every wrapper installed above it — and reject
this call with the send error. -/
def clientSendFailed (s : PClientWireState) (i : Rat) (errMsg : String) :
    PClientWireState :=
  { handlerStack := (s.handlerStack.dropWhile (fun h => h != i)).drop 1,
    calls := setStatusQ s.calls i (.rejected errMsg) }

deriving instance DecidableEq for Except

theorem lookupAssoc_filter_ne {β : Type} (k n : String) (h : k ≠ n)
    (l : List (String × β)) :
    lookupAssoc (l.filter (fun p => !(p.1 == k))) n = lookupAssoc l n := by
  unfold lookupAssoc
  rw [List.find?_filter]
  have hpred : (fun (a : String × β) => decide ((!(a.1 == k)) = true ∧ (a.1 == n) = true)) =
      (fun (a : String × β) => a.1 == n) := by
    funext a
    by_cases han : a.1 = n
    · have hak : (a.1 == k) = false := by
        subst han
        simp only [beq_eq_false_iff_ne, ne_eq]
        exact fun hc => h hc.symm
      simp only [han, hak]
      simp only [Bool.not_false, beq_self_eq_true, decide_eq_true_eq, true_and]
      simp
      exact fun hc => h hc.symm
    · simp [han]
  rw [hpred]

theorem lookupAssoc_append {β : Type} (l₁ l₂ : List (String × β)) (n : String) :
    lookupAssoc (l₁ ++ l₂) n =
      ((l₁.find? (fun p => p.1 == n)).or (l₂.find? (fun p => p.1 == n))).map Prod.snd := by
  unfold lookupAssoc
  rw [List.find?_append]

theorem lookupAssoc_filter_self {β : Type} (k : String) (l : List (String × β)) :
    (l.filter (fun p => !(p.1 == k))).find? (fun p => p.1 == k) = none := by
  rw [List.find?_eq_none]
  intro x hx
  have := (List.mem_filter.mp hx).2
  simp only [Bool.not_eq_true'] at this
  simp [this]

theorem reconnectStep_lookup_other (cr : String → Option ClientState) (now : Nat)
    (acc : List (String × SessionInfo) × List String) (k n : String) (h : k ≠ n) :
    lookupAssoc (reconnectStep cr now acc k).1 n = lookupAssoc acc.1 n := by
  unfold reconnectStep
  cases hcr : cr k with
  | none =>
      simp only
      exact lookupAssoc_filter_ne k n h acc.1
  | some c =>
      simp only
      rw [lookupAssoc_append]
      have hkn : (k == n) = false := beq_eq_false_iff_ne.mpr h
      have hsing : ([(k, mkFreshSession k c now)].find? (fun p => p.1 == n)) = none := by
        simp [List.find?, hkn]
      rw [hsing, Option.or_none]
      exact lookupAssoc_filter_ne k n h acc.1

theorem reconnectStep_lookup_self (cr : String → Option ClientState) (now : Nat)
    (acc : List (String × SessionInfo) × List String) (k : String) :
    lookupAssoc (reconnectStep cr now acc k).1 k =
      (cr k).map (fun c => mkFreshSession k c now) := by
  unfold reconnectStep
  cases hcr : cr k with
  | none =>
      simp only [Option.map_none]
      unfold lookupAssoc
      rw [lookupAssoc_filter_self]
      rfl
  | some c =>
      simp only [Option.map_some]
      rw [lookupAssoc_append, lookupAssoc_filter_self, Option.none_or]
      simp [List.find?]

theorem reconnectFold_lookup_not_mem (cr : String → Option ClientState) (now : Nat)
    (ks : List String) (acc : List (String × SessionInfo) × List String) (n : String)
    (h : n ∉ ks) :
    lookupAssoc (ks.foldl (reconnectStep cr now) acc).1 n = lookupAssoc acc.1 n := by
  induction ks generalizing acc with
  | nil => rfl
  | cons k ks ih =>
      have hkn : k ≠ n := fun hc => h (hc ▸ List.mem_cons_self k ks)
      have hnks : n ∉ ks := fun hc => h (List.mem_cons_of_mem k hc)
      rw [List.foldl_cons, ih _ hnks, reconnectStep_lookup_other cr now acc k n hkn]

theorem reconnectFold_lookup_mem (cr : String → Option ClientState) (now : Nat)
    (ks : List String) (acc : List (String × SessionInfo) × List String) (n : String)
    (hnd : ks.Nodup) (h : n ∈ ks) :
    lookupAssoc (ks.foldl (reconnectStep cr now) acc).1 n =
      (cr n).map (fun c => mkFreshSession n c now) := by
  induction ks generalizing acc with
  | nil => exact absurd h (List.not_mem_nil n)
  | cons k ks ih =>
      rw [List.foldl_cons]
      rcases List.mem_cons.mp h with hk | hks
      · subst hk
        have hnks : n ∉ ks := (List.nodup_cons.mp hnd).1
        rw [reconnectFold_lookup_not_mem cr now ks _ n hnks]
        exact reconnectStep_lookup_self cr now acc n
      · exact ih _ (List.nodup_cons.mp hnd).2 hks

theorem reconnectFold_snd (cr : String → Option ClientState) (now : Nat)
    (ks : List String) (acc : List (String × SessionInfo) × List String) :
    (ks.foldl (reconnectStep cr now) acc).2 =
      acc.2 ++ ks.filter (fun m => (cr m).isSome) := by
  induction ks generalizing acc with
  | nil => simp
  | cons k ks ih =>
      rw [List.foldl_cons, ih]
      cases hcr : cr k with
      | none => simp [reconnectStep, hcr, List.filter_cons]
      | some c => simp [reconnectStep, hcr, List.filter_cons]

theorem find?_setStatus_self (j : Nat) (st : CallStatus) (calls : List (Nat × CallStatus)) :
    (setStatus calls j st).find? (fun p => p.1 == j) =
      (calls.find? (fun p => p.1 == j)).map (fun p => (p.1, st)) := by
  have hcomp : ((fun p : Nat × CallStatus => p.1 == j) ∘
      (fun p : Nat × CallStatus => if p.1 == j then (p.1, st) else p)) =
      (fun p : Nat × CallStatus => p.1 == j) := by
    funext p
    by_cases h : (p.1 == j) = true <;> simp [Function.comp, h]
  rw [setStatus, List.find?_map, hcomp]
  cases hf : calls.find? (fun p => p.1 == j) with
  | none => rfl
  | some p =>
      have hp := List.find?_some hf
      simp [hp]
      intro hc
      exact absurd (beq_iff_eq.mp hp) hc

theorem find?_setStatus_other (i j : Nat) (st : CallStatus) (hij : i ≠ j)
    (calls : List (Nat × CallStatus)) :
    (setStatus calls j st).find? (fun p => p.1 == i) =
      calls.find? (fun p => p.1 == i) := by
  have hcomp : ((fun p : Nat × CallStatus => p.1 == i) ∘
      (fun p : Nat × CallStatus => if p.1 == j then (p.1, st) else p)) =
      (fun p : Nat × CallStatus => p.1 == i) := by
    funext p
    by_cases h : (p.1 == j) = true <;> simp [Function.comp, h]
  rw [setStatus, List.find?_map, hcomp]
  cases hf : calls.find? (fun p => p.1 == i) with
  | none => rfl
  | some p =>
      have hp := List.find?_some hf
      have hpi : p.1 = i := beq_iff_eq.mp hp
      have hpj : (p.1 == j) = false := beq_eq_false_iff_ne.mpr (hpi ▸ hij)
      simp [hpj]
      intro hc
      exact absurd hc (beq_eq_false_iff_ne.mp hpj)

theorem getStatus_fresh (s : WireState) (hb : ∀ p ∈ s.calls, p.1 ≤ s.requestId) :
    (s.calls.find? (fun p => p.1 == s.requestId + 1)) = none := by
  rw [List.find?_eq_none]
  intro p hp
  have := hb p hp
  simp only [beq_iff_eq]
  omega

theorem advanceTime_no_timers (s : WireState) (t : Nat) (h : s.timers = []) :
    advanceTime s t = { s with now := s.now + t, timers := [] } := by
  simp [advanceTime, h]

/-- C4: the idle-eviction sweep (scheduled every 5 minutes by
startSessionCleanupTimer) never disconnects or removes a session whose
server name is statically configured (present in serverConfigs), regardless
of idle time, and always disconnects and removes every dynamic session whose
lastActivityAt lies more than 30 minutes (IDLE_TIMEOUT) in the past. The
first component of cleanupIdleSessions is the surviving map, the second the
entries disconnected and deleted by the sweep. -/
theorem C4_idle_eviction (configs : List (String × MCPServerConfig))
    (sessions : List (String × SessionInfo)) (now : Nat) (sid : String) (s : SessionInfo)
    (hmem : (sid, s) ∈ sessions) :
    CLEANUP_INTERVAL_MS = 5 * 60 * 1000 ∧ IDLE_TIMEOUT = 30 * 60 * 1000 ∧
    (isConfigured configs s.server = true →
      (sid, s) ∈ (cleanupIdleSessions configs sessions now).1 ∧
      (sid, s) ∉ (cleanupIdleSessions configs sessions now).2) ∧
    (isConfigured configs s.server = false →
      (IDLE_TIMEOUT : Int) < (now : Int) - (s.lastActivityAt : Int) →
      (sid, s) ∉ (cleanupIdleSessions configs sessions now).1 ∧
      (sid, s) ∈ (cleanupIdleSessions configs sessions now).2) := by
  refine ⟨rfl, rfl, ?_, ?_⟩
  · intro hconf
    have hkeep : keepSession configs now (sid, s) = true := by
      simp [keepSession, hconf]
    constructor
    · exact List.mem_filter.mpr ⟨hmem, hkeep⟩
    · intro hc
      have := (List.mem_filter.mp hc).2
      simp [hkeep] at this
  · intro hconf hidle
    have hkeep : keepSession configs now (sid, s) = false := by
      simp [keepSession, hconf, hidle]
    constructor
    · intro hc
      have := (List.mem_filter.mp hc).2
      simp [hkeep] at this
    · refine List.mem_filter.mpr ⟨hmem, ?_⟩
      simp [hkeep]

/-- Witness for C4_idle_eviction: a configured session survives a sweep at
an arbitrarily late time, and an unconfigured one idle for more than 30
minutes is removed. -/
theorem C4_idle_eviction_witness :
    (("s", mkFreshSession "s" ⟨true, none, []⟩ 0) ∈
      (cleanupIdleSessions [("s", {})]
        [("s", mkFreshSession "s" ⟨true, none, []⟩ 0)] 10000000000).1) ∧
    (("d", mkFreshSession "d" ⟨true, none, []⟩ 0) ∈
      (cleanupIdleSessions [("s", {})]
        [("d", mkFreshSession "d" ⟨true, none, []⟩ 0)] 10000000000).2) := by
  have h1 := (C4_idle_eviction [("s", {})]
    [("s", mkFreshSession "s" ⟨true, none, []⟩ 0)] 10000000000 "s"
    (mkFreshSession "s" ⟨true, none, []⟩ 0) (by decide)).2.2.1 (by decide)
  have h2 := (C4_idle_eviction [("s", {})]
    [("d", mkFreshSession "d" ⟨true, none, []⟩ 0)] 10000000000 "d"
    (mkFreshSession "d" ⟨true, none, []⟩ 0) (by decide)).2.2.2 (by decide) (by decide)
  exact ⟨h1.1, h2.2⟩

/-- C5: for a connected client and a tool name present in the cached
catalog, listTools is exactly the projection of the cached catalog to the
two-field MCPToolInfo record (the type carries no input-schema field), and
getToolSchema returns the name, description and inputSchema of the very
cache entry find? locates; both are pure functions of the cached state, so
no provider refetch is possible. -/
theorem C5_progressive_views (st : ClientState) (hconn : st.connected = true)
    (tn : String) (e : ToolCacheEntry)
    (hfind : st.toolsCache.find? (fun t => t.name == tn) = some e) :
    listTools st = .ok (st.toolsCache.map
      (fun t => ({ name := t.name, description := t.description } : MCPToolInfo))) ∧
    getToolSchema st tn =
      .ok { name := e.name, description := e.description, inputSchema := e.inputSchema } ∧
    e ∈ st.toolsCache ∧
    ({ name := e.name, description := e.description } : MCPToolInfo) ∈
      st.toolsCache.map (fun t => ({ name := t.name, description := t.description } : MCPToolInfo)) := by
  refine ⟨by simp [listTools, hconn], by simp [getToolSchema, hconn, hfind], ?_, ?_⟩
  · exact List.mem_of_find?_eq_some hfind
  · exact List.mem_map_of_mem _ (List.mem_of_find?_eq_some hfind)

/-- Witness for C5_progressive_views on a one-entry catalog. -/
theorem C5_progressive_views_witness :
    listTools ⟨true, none, [⟨"a", "d", "sch"⟩]⟩ = .ok [⟨"a", "d"⟩] ∧
    getToolSchema ⟨true, none, [⟨"a", "d", "sch"⟩]⟩ "a" = .ok ⟨"a", "d", "sch"⟩ := by
  have h := C5_progressive_views ⟨true, none, [⟨"a", "d", "sch"⟩]⟩ rfl "a" ⟨"a", "d", "sch"⟩
    (by decide)
  exact ⟨h.1, h.2.1⟩

/-- C8: the daemon-side port for a session name is
49152 + |hash(session)| mod 16383, always inside the dynamic/private range
49152..65535, and the caller-side copy in src/socket-client.ts computes the
identical function, so both ends derive the same deterministic port. -/
theorem C8_port_hash (session : String) :
    getPortForSession session = 49152 + (sessionHash session).natAbs % 16383 ∧
    49152 ≤ getPortForSession session ∧ getPortForSession session ≤ 65535 ∧
    getPortForSessionClient session = getPortForSession session := by
  refine ⟨rfl, ?_, ?_, rfl⟩
  · unfold getPortForSession
    omega
  · unfold getPortForSession
    have h := Nat.mod_lt (sessionHash session).natAbs (show 0 < 16383 by decide)
    omega

/-- C10: SocketClient.send on a disconnected client first connects and then
transmits (so it never fails merely because connect was not called first);
when the implicit connection attempt fails, send fails with that connection
error and the command is never written. -/
theorem C10_send_implicit_connect (st : SCState) (h : st.connected = false) (m : String) :
    (clientSend st .success none).1 = .pendingSent (toString (st.requestId + 1)) ∧
    (clientSend st .success none).2.2 = [toString (st.requestId + 1)] ∧
    (clientSend st (.errorEvent m) none).1 =
      .failedConnect ("Failed to connect to daemon: " ++ m) ∧
    (clientSend st (.errorEvent m) none).2.2 = [] ∧
    (clientSend st .timedOut none).1 = .failedConnect "Connection timeout" := by
  refine ⟨?_, ?_, ?_, ?_, ?_⟩ <;>
    simp [clientSend, clientConnect, clientTransmit, h]

/-- Witness for C10_send_implicit_connect on a fresh client. -/
theorem C10_send_implicit_connect_witness :
    (clientSend ⟨false, false, 0⟩ .success none).1 = .pendingSent "1" ∧
    (clientSend ⟨false, false, 0⟩ (.errorEvent "ECONNREFUSED") none).1 =
      .failedConnect "Failed to connect to daemon: ECONNREFUSED" := by
  have h := C10_send_implicit_connect ⟨false, false, 0⟩ rfl "ECONNREFUSED"
  exact ⟨h.1, h.2.2.1⟩

theorem find?_append_fresh (calls : List (Nat × CallStatus)) (i : Nat) (st : CallStatus)
    (hfresh : calls.find? (fun p => p.1 == i) = none) :
    (calls ++ [(i, st)]).find? (fun p => p.1 == i) = some (i, st) := by
  rw [List.find?_append, hfresh]
  simp [List.find?]

theorem find?_processExitMap (i : Nat) (calls : List (Nat × CallStatus)) :
    (calls.map (fun p =>
        match p.2 with
        | CallStatus.pending => (p.1, CallStatus.rejected "Process disconnected")
        | _ => p)).find? (fun p => p.1 == i) =
      (calls.find? (fun p => p.1 == i)).map (fun p =>
        match p.2 with
        | CallStatus.pending => (p.1, CallStatus.rejected "Process disconnected")
        | _ => p) := by
  have hcomp : ((fun p : Nat × CallStatus => p.1 == i) ∘
      (fun p : Nat × CallStatus =>
        match p.2 with
        | CallStatus.pending => (p.1, CallStatus.rejected "Process disconnected")
        | _ => p)) = (fun p : Nat × CallStatus => p.1 == i) := by
    funext p
    rcases p with ⟨k, st⟩
    cases st <;> rfl
  rw [List.find?_map, hcomp]

theorem find?_setStatusQ_self (j : Rat) (st : CallStatus) (calls : List (Rat × CallStatus)) :
    (setStatusQ calls j st).find? (fun p => p.1 == j) =
      (calls.find? (fun p => p.1 == j)).map (fun p => (p.1, st)) := by
  have hcomp : ((fun p : Rat × CallStatus => p.1 == j) ∘
      (fun p : Rat × CallStatus => if p.1 == j then (p.1, st) else p)) =
      (fun p : Rat × CallStatus => p.1 == j) := by
    funext p
    by_cases h : (p.1 == j) = true <;> simp [Function.comp, h]
  rw [setStatusQ, List.find?_map, hcomp]
  cases hf : calls.find? (fun p => p.1 == j) with
  | none => rfl
  | some p =>
      have hp := List.find?_some hf
      simp [hp]
      intro hc
      exact absurd (beq_iff_eq.mp hp) hc

theorem find?_append_freshQ (calls : List (Rat × CallStatus)) (i : Rat) (st : CallStatus)
    (hfresh : calls.find? (fun p => p.1 == i) = none) :
    (calls ++ [(i, st)]).find? (fun p => p.1 == i) = some (i, st) := by
  rw [List.find?_append, hfresh]
  simp [List.find?]

/-- C2 (amended): only SseTransport enforces the deadline — its sendRequest
rejects an unanswered call with the request-timeout error once the
configurable deadline (default 30000 ms) elapses. StdioTransport.sendRequest
schedules no deadline at all, so an unanswered call stays pending for any
amount of elapsed time and is rejected only when the child process exits.
The daemon transports correlate by a locally generated sequential integer
id, tolerating out-of-order and interleaved responses. The ProgressiveMCP
client's own sendRequest (src/client.ts) also schedules no deadline; its id
Date.now() + Math.random() is not an integer whenever Math.random() is
nonzero, and its one-shot onmessage wrapper clobbers the installed handler,
so a response for an earlier pending call that arrives while a later call's
wrapper is active settles nothing and the earlier call stays pending —
only last-in-first-out response orders resolve the right calls. -/
theorem C2_correlation_and_timeout :
    (∀ (s : WireState) (cfg : Option Nat) (t : Nat),
      (∀ p ∈ s.calls, p.1 ≤ s.requestId) → s.timers = [] →
      cfg.getD DEFAULT_SSE_TIMEOUT ≤ t →
      getStatus (advanceTime (sendRequestSse cfg s).1 t) (sendRequestSse cfg s).2 =
        some (.rejected "Request timeout")) ∧
    (∀ (s : WireState) (i j : Nat) (v : String), i ≠ j →
      getStatus s i = some .pending → getStatus s j = some .pending →
      getStatus (deliverResponse s j (.ok v)) j = some (.resolved v) ∧
      getStatus (deliverResponse s j (.ok v)) i = some .pending) ∧
    (∀ (s : WireState) (t : Nat),
      (∀ p ∈ s.calls, p.1 ≤ s.requestId) → s.timers = [] →
      getStatus (advanceTime (sendRequestStdio s).1 t) (sendRequestStdio s).2 =
        some .pending ∧
      getStatus (processExit (sendRequestStdio s).1) (sendRequestStdio s).2 =
        some (.rejected "Process disconnected")) ∧
    (∀ (s : PClientWireState) (n : Int) (r : Rat), 0 < r → r < 1 →
      (sendRequestClient s (n : Rat) r).2 = (n : Rat) + r ∧
      (sendRequestClient s (n : Rat) r).1.calls =
        s.calls ++ [((n : Rat) + r, .pending)] ∧
      ∀ m : Int, (sendRequestClient s (n : Rat) r).2 ≠ (m : Rat)) ∧
    (∀ (s : PClientWireState) (n1 r1 n2 r2 : Rat) (v : String),
      n1 + r1 ≠ n2 + r2 →
      (∀ p ∈ s.calls, p.1 ≠ n1 + r1) →
      deliverClientMessage (sendRequestClient (sendRequestClient s n1 r1).1 n2 r2).1
          (n1 + r1) (.ok v) =
        (sendRequestClient (sendRequestClient s n1 r1).1 n2 r2).1 ∧
      getStatusQ (sendRequestClient (sendRequestClient s n1 r1).1 n2 r2).1 (n1 + r1) =
        some .pending) ∧
    (∀ (s : PClientWireState) (i : Rat) (rest : List Rat) (v : String),
      s.handlerStack = i :: rest → getStatusQ s i = some .pending →
      getStatusQ (deliverClientMessage s i (.ok v)) i = some (.resolved v) ∧
      (deliverClientMessage s i (.ok v)).handlerStack = rest) := by
  refine ⟨?_, ?_, ?_, ?_, ?_, ?_⟩
  · intro s cfg t hb htimers hle
    have hfresh := getStatus_fresh s hb
    have happ := find?_append_fresh s.calls (s.requestId + 1) .pending hfresh
    have hwithin : s.now + cfg.getD DEFAULT_SSE_TIMEOUT ≤ s.now + t := by omega
    simp only [sendRequestSse, advanceTime, htimers, List.nil_append, List.filter,
      decide_eq_true hwithin, List.foldl, fireTimer, getStatus, happ]
    have hc : Option.map Prod.snd (some (s.requestId + 1, CallStatus.pending)) =
        some CallStatus.pending := rfl
    rw [if_pos hc, find?_setStatus_self, happ]
    rfl
  · intro s i j v hij hpi hpj
    constructor
    · simp only [deliverResponse, hpj, if_pos]
      rcases Option.map_eq_some'.mp hpj with ⟨q, hq, hq2⟩
      simp only [getStatus, find?_setStatus_self, hq]
      rfl
    · simp only [deliverResponse, hpj, if_pos]
      simp only [getStatus, find?_setStatus_other i j _ hij]
      exact hpi
  · intro s t hb htimers
    have hfresh := getStatus_fresh s hb
    have happ := find?_append_fresh s.calls (s.requestId + 1) .pending hfresh
    constructor
    · have hnt : (sendRequestStdio s).1.timers = [] := htimers
      rw [advanceTime_no_timers _ t hnt]
      simp only [sendRequestStdio, getStatus, happ]
      rfl
    · simp only [sendRequestStdio, processExit, getStatus, find?_processExitMap, happ]
      rfl
  · intro s n r hr0 hr1
    refine ⟨rfl, rfl, ?_⟩
    intro m hc
    have hc2 : (n : Rat) + r = (m : Rat) := hc
    have hr : r = ((m - n : Int) : Rat) := by
      push_cast
      linarith
    have h2 : (0 : Int) < m - n := by
      rw [hr] at hr0
      exact_mod_cast hr0
    have h3 : (m - n : Int) < 1 := by
      rw [hr] at hr1
      exact_mod_cast hr1
    omega
  · intro s n1 r1 n2 r2 v hne hfresh
    have hb : ((n1 + r1) == (n2 + r2)) = false := beq_eq_false_iff_ne.mpr hne
    have h0 : s.calls.find? (fun p => p.1 == n1 + r1) = none := by
      rw [List.find?_eq_none]
      intro x hx hxb
      exact hfresh x hx (beq_iff_eq.mp hxb)
    constructor
    · simp [sendRequestClient, deliverClientMessage, hb]
    · simp only [sendRequestClient, getStatusQ, List.find?_append, h0]
      simp [List.find?]
  · intro s i rest v hstack hpend
    rcases Option.map_eq_some'.mp hpend with ⟨q, hq, hq2⟩
    constructor
    · simp only [deliverClientMessage, hstack, beq_self_eq_true, if_true]
      simp only [getStatusQ, find?_setStatusQ_self, hq]
      rfl
    · simp [deliverClientMessage, hstack]

/-- Witness for C2_correlation_and_timeout: the default 30000 ms deadline
rejects an unanswered SSE call; a response for id 2 resolves call 2 and
leaves call 1 pending; an unanswered stdio call is rejected by process
exit; the client id 1700000000000 + 1/2 is not the integer 1700000000000;
a response for the client's first call delivered while the second call's
wrapper is active changes nothing and leaves the first call pending; and
delivering the top wrapper's own response resolves that call. -/
theorem C2_correlation_and_timeout_witness :
    getStatus (advanceTime (sendRequestSse none ⟨0, [], [], 0⟩).1 30000)
        (sendRequestSse none ⟨0, [], [], 0⟩).2 =
      some (CallStatus.rejected "Request timeout") ∧
    getStatus (deliverResponse ⟨2, [(1, .pending), (2, .pending)], [], 0⟩ 2 (.ok "r")) 2 =
      some (CallStatus.resolved "r") ∧
    getStatus (deliverResponse ⟨2, [(1, .pending), (2, .pending)], [], 0⟩ 2 (.ok "r")) 1 =
      some CallStatus.pending ∧
    getStatus (processExit (sendRequestStdio ⟨0, [], [], 0⟩).1)
        (sendRequestStdio ⟨0, [], [], 0⟩).2 =
      some (CallStatus.rejected "Process disconnected") ∧
    (sendRequestClient ⟨[], []⟩ ((1700000000000 : Int) : Rat) (1/2)).2 ≠
      ((1700000000000 : Int) : Rat) ∧
    deliverClientMessage (sendRequestClient (sendRequestClient ⟨[], []⟩ 10 0).1 20 0).1
        (10 + 0) (.ok "v") =
      (sendRequestClient (sendRequestClient ⟨[], []⟩ 10 0).1 20 0).1 ∧
    getStatusQ (sendRequestClient (sendRequestClient ⟨[], []⟩ 10 0).1 20 0).1 (10 + 0) =
      some CallStatus.pending ∧
    getStatusQ (deliverClientMessage
        (sendRequestClient (sendRequestClient ⟨[], []⟩ 10 0).1 20 0).1 (20 + 0) (.ok "w"))
        (20 + 0) =
      some (CallStatus.resolved "w") := by
  have h1 := C2_correlation_and_timeout.1 ⟨0, [], [], 0⟩ none 30000 (by simp) rfl (by decide)
  have h2 := C2_correlation_and_timeout.2.1 ⟨2, [(1, .pending), (2, .pending)], [], 0⟩ 1 2 "r"
    (by decide) (by decide) (by decide)
  have h3 := C2_correlation_and_timeout.2.2.1 ⟨0, [], [], 0⟩ 5 (by simp) rfl
  have h4 := (C2_correlation_and_timeout.2.2.2.1 ⟨[], []⟩ 1700000000000 (1/2)
    (by norm_num) (by norm_num)).2.2 1700000000000
  have h5 := C2_correlation_and_timeout.2.2.2.2.1 ⟨[], []⟩ 10 0 20 0 "v"
    (by norm_num) (by simp)
  have h6 := C2_correlation_and_timeout.2.2.2.2.2
    (sendRequestClient (sendRequestClient ⟨[], []⟩ 10 0).1 20 0).1 (20 + 0) [10 + 0] "w"
    rfl
    (by
      have hb : ((10 : Rat) == (20 : Rat)) = false :=
        beq_eq_false_iff_ne.mpr (by norm_num)
      simp [sendRequestClient, getStatusQ, List.find?, hb])
  exact ⟨h1, h2.1, h2.2, h3.2, h4, h5.1, h5.2, h6.1⟩

/-- C2 counterexample: a StdioTransport call that never receives a matching
response is still pending after 1,000,000,000 ms — far beyond the claimed
default 30 s deadline — because StdioTransport.sendRequest schedules no
timeout; the claim as stated is false for the spawned-process transport. -/
theorem C2_counterexample :
    getStatus (advanceTime (sendRequestStdio ⟨0, [], [], 0⟩).1 1000000000)
        (sendRequestStdio ⟨0, [], [], 0⟩).2 = some CallStatus.pending ∧
    DEFAULT_SSE_TIMEOUT < 1000000000 := by
  exact ⟨by decide, by decide⟩

/-- C1 (amended): after reconnectServers — the reload path of the socket
handler — every name of the reloaded configuration resolves either to a
session freshly connected during this reload or to a not-found lookup;
names absent from the new configuration keep exactly the session map entry
they had before, so such pre-reload sessions remain reachable; and the
reload reply reports only the names whose reconnect succeeded, not
before/after name lists. -/
theorem C1_reload_resolution (sessions : List (String × SessionInfo))
    (configKeys : List String) (cr : String → Option ClientState) (now : Nat)
    (hnd : configKeys.Nodup) (n : String) :
    (n ∈ configKeys →
      lookupAssoc (reconnectServers sessions configKeys cr now).1 n =
        (cr n).map (fun c => mkFreshSession n c now)) ∧
    (n ∉ configKeys →
      lookupAssoc (reconnectServers sessions configKeys cr now).1 n =
        lookupAssoc sessions n) ∧
    (reconnectServers sessions configKeys cr now).2 =
      configKeys.filter (fun m => (cr m).isSome) := by
  refine ⟨?_, ?_, ?_⟩
  · intro h
    exact reconnectFold_lookup_mem cr now configKeys (sessions, []) n hnd h
  · intro h
    exact reconnectFold_lookup_not_mem cr now configKeys (sessions, []) n h
  · simpa using reconnectFold_snd cr now configKeys (sessions, [])

/-- Witness for C1_reload_resolution: reloading from a map holding session
"a" with a configuration naming only "b" connects a fresh "b" session and
leaves the "a" entry as it was. -/
theorem C1_reload_resolution_witness :
    lookupAssoc (reconnectServers [("a", mkFreshSession "a" ⟨true, none, []⟩ 0)] ["b"]
      (fun name => if name = "b" then some ⟨true, none, []⟩ else none) 9).1 "b" =
      some (mkFreshSession "b" ⟨true, none, []⟩ 9) ∧
    lookupAssoc (reconnectServers [("a", mkFreshSession "a" ⟨true, none, []⟩ 0)] ["b"]
      (fun name => if name = "b" then some ⟨true, none, []⟩ else none) 9).1 "a" =
      some (mkFreshSession "a" ⟨true, none, []⟩ 0) := by
  have h1 := (C1_reload_resolution [("a", mkFreshSession "a" ⟨true, none, []⟩ 0)] ["b"]
    (fun name => if name = "b" then some ⟨true, none, []⟩ else none) 9 (by simp) "b").1
    (by simp)
  have h2 := (C1_reload_resolution [("a", mkFreshSession "a" ⟨true, none, []⟩ 0)] ["b"]
    (fun name => if name = "b" then some ⟨true, none, []⟩ else none) 9 (by simp) "a").2.1
    (by simp)
  refine ⟨by simpa using h1, by rw [h2]; decide⟩

/-- C1 counterexample: a daemon holding session "a" receives a reload whose
new configuration names only "b"; after the reload action completes, the
pre-reload session "a" is still in the session map and routing resolves "a"
to that very session, and the reply carries only the reconnected list — so
the claim that no pre-reload session remains reachable and that before and
after name lists are reported is false on this input. -/
theorem C1_counterexample :
    lookupAssoc (handleSocketRequest
        ⟨[("a", ⟨"a", "a", ⟨true, none, []⟩, 0, 0⟩)], [("a", {})], "default"⟩
        ⟨.ok [("b", {})], (fun name => if name = "b" then some ⟨true, none, []⟩ else none),
         (fun _ _ => .error "unused"), 99⟩
        ⟨some "7", some "reload", none, none⟩).2.sessions "a" =
      some ⟨"a", "a", ⟨true, none, []⟩, 0, 0⟩ ∧
    lookupAssoc
        (⟨[("a", ⟨"a", "a", ⟨true, none, []⟩, 0, 0⟩)], [("a", {})], "default"⟩ :
          DaemonState).sessions "a" =
      some ⟨"a", "a", ⟨true, none, []⟩, 0, 0⟩ ∧
    (handleSocketRequest
        ⟨[("a", ⟨"a", "a", ⟨true, none, []⟩, 0, 0⟩)], [("a", {})], "default"⟩
        ⟨.ok [("b", {})], (fun name => if name = "b" then some ⟨true, none, []⟩ else none),
         (fun _ _ => .error "unused"), 99⟩
        ⟨some "7", some "reload", none, none⟩).1 =
      .ok ⟨some "7", true, some (.reloadData "Configuration reloaded" ["b"]), none⟩ := by
  exact ⟨by decide, by decide, by decide⟩

/-- C3 (amended): every per-server socket action (metadata, list, schema,
call, health) naming an unregistered server gets the fixed failure
response whose error is the constant-shape message naming only the
requested server — it does not enumerate the available names; the
enumeration of available server names lives solely in getServerConfig,
which the connect/reload path raises for unknown configured names. -/
theorem C3_not_found_message (d : DaemonState) (env : DaemonEnv) (req : SocketRequest)
    (ha : req.action ∈ [some "metadata", some "list", some "schema", some "call", some "health"])
    (hs : req.server.bind (lookupAssoc d.sessions) = none) :
    handleSocketRequest d env req =
      (.ok { id := req.id, success := false,
             error := some ("Server '" ++ jsShow req.server ++ "' not found or not connected") },
       d) ∧
    (∀ configs server, lookupAssoc configs server = none →
      getServerConfig configs server =
        .error ("Unknown MCP server: " ++ server ++ "\n" ++ "Available servers: " ++
          (if String.intercalate ", " (configs.map Prod.fst) = "" then "(none)"
           else String.intercalate ", " (configs.map Prod.fst)))) := by
  constructor
  · simp only [List.mem_cons, List.not_mem_nil, or_false] at ha
    rcases ha with h | h | h | h | h <;>
      simp [handleSocketRequest, h, hs]
  · intro configs server hnone
    simp [getServerConfig, hnone]

/-- Witness for C3_not_found_message: a metadata request for an unknown
name against a daemon with one registered session. -/
theorem C3_not_found_message_witness :
    (handleSocketRequest
        ⟨[("alpha", ⟨"alpha", "alpha", ⟨true, none, []⟩, 0, 0⟩)], [("alpha", {})], "default"⟩
        ⟨.error "unused", (fun _ => none), (fun _ _ => .error "unused"), 0⟩
        ⟨some "1", some "metadata", some "beta", none⟩).1 =
      .ok ⟨some "1", false, none, some "Server 'beta' not found or not connected"⟩ := by
  have h := C3_not_found_message
    ⟨[("alpha", ⟨"alpha", "alpha", ⟨true, none, []⟩, 0, 0⟩)], [("alpha", {})], "default"⟩
    ⟨.error "unused", (fun _ => none), (fun _ _ => .error "unused"), 0⟩
    ⟨some "1", some "metadata", some "beta", none⟩ (by decide) (by decide)
  exact congrArg Prod.fst h.1

/-- C3 counterexample: with session "alpha" registered, a metadata request
for "beta" yields the error message that does not contain the available
name "alpha" anywhere — so the claim that the error enumerates the
currently available server names is false on this input. -/
theorem C3_counterexample :
    (handleSocketRequest
        ⟨[("alpha", ⟨"alpha", "alpha", ⟨true, none, []⟩, 0, 0⟩)], [("alpha", {})], "default"⟩
        ⟨.error "unused", (fun _ => none), (fun _ _ => .error "unused"), 0⟩
        ⟨some "1", some "metadata", some "beta", none⟩).1 =
      .ok ⟨some "1", false, none, some "Server 'beta' not found or not connected"⟩ ∧
    containsSub "Server 'beta' not found or not connected" "alpha" = false := by
  exact ⟨by decide, by decide⟩

/-- C6 (amended): a socket schema request naming a registered session and a
non-empty tool name absent from the cached catalog is answered with success
false and the error message Tool '<name>' not found; a missing or empty
(JS-falsy) tool name instead hits the if (!tool) guard and is answered
Tool name is required for schema; the client exception (whose text, when
the session is connected, is Tool not found: <name>) is discarded by the
daemon and replaced by its own quoted format. -/
theorem C6_schema_unknown_tool (d : DaemonState) (env : DaemonEnv) (req : SocketRequest)
    (sv t : String) (sess : SessionInfo)
    (hsv : req.server = some sv) (ht : req.tool = some t)
    (ha : req.action = some "schema")
    (hlook : lookupAssoc d.sessions sv = some sess)
    (hmiss : sess.client.toolsCache.find? (fun tc => tc.name == t) = none)
    (htne : t ≠ "") :
    (handleSocketRequest d env req).1 =
      .ok { id := req.id, success := false,
            error := some ("Tool '" ++ t ++ "' not found") } ∧
    (handleSocketRequest d env { req with tool := some "" }).1 =
      .ok { id := req.id, success := false,
            error := some "Tool name is required for schema" } ∧
    (handleSocketRequest d env { req with tool := none }).1 =
      .ok { id := req.id, success := false,
            error := some "Tool name is required for schema" } ∧
    (∀ sch, getToolSchema sess.client t ≠ .ok sch) ∧
    (sess.client.connected = true →
      getToolSchema sess.client t = .error ("Tool not found: " ++ t)) := by
  refine ⟨?_, ?_, ?_, ?_, ?_⟩
  · simp only [handleSocketRequest, ha, hsv, ht, hlook, getToolSchema, hmiss]
    by_cases hconn : sess.client.connected = true <;> simp [hlook, hmiss, hconn, htne]
  · simp [handleSocketRequest, ha, hsv, ht, hlook]
  · simp [handleSocketRequest, ha, hsv, ht, hlook]
  · intro sch hc
    unfold getToolSchema at hc
    by_cases hconn : sess.client.connected
    · rw [if_pos hconn, hmiss] at hc
      exact Except.noConfusion hc
    · rw [if_neg hconn] at hc
      exact Except.noConfusion hc
  · intro hconn
    unfold getToolSchema
    rw [if_pos hconn, hmiss]

/-- Witness for C6_schema_unknown_tool: session "s" with a one-tool catalog
receives a schema request for the absent non-empty tool "x", and the
falsy-tool variants of the same request get the required-name error. -/
theorem C6_schema_unknown_tool_witness :
    (handleSocketRequest
        ⟨[("s", ⟨"s", "s", ⟨true, none, [⟨"a", "d", "sch"⟩]⟩, 0, 0⟩)], [], "default"⟩
        ⟨.error "unused", (fun _ => none), (fun _ _ => .error "unused"), 0⟩
        ⟨some "1", some "schema", some "s", some "x"⟩).1 =
      .ok ⟨some "1", false, none, some "Tool 'x' not found"⟩ ∧
    (handleSocketRequest
        ⟨[("s", ⟨"s", "s", ⟨true, none, [⟨"a", "d", "sch"⟩]⟩, 0, 0⟩)], [], "default"⟩
        ⟨.error "unused", (fun _ => none), (fun _ _ => .error "unused"), 0⟩
        ⟨some "1", some "schema", some "s", some ""⟩).1 =
      .ok ⟨some "1", false, none, some "Tool name is required for schema"⟩ := by
  have h := C6_schema_unknown_tool
    ⟨[("s", ⟨"s", "s", ⟨true, none, [⟨"a", "d", "sch"⟩]⟩, 0, 0⟩)], [], "default"⟩
    ⟨.error "unused", (fun _ => none), (fun _ _ => .error "unused"), 0⟩
    ⟨some "1", some "schema", some "s", some "x"⟩ "s" "x"
    ⟨"s", "s", ⟨true, none, [⟨"a", "d", "sch"⟩]⟩, 0, 0⟩ rfl rfl rfl (by decide) (by decide)
    (by decide)
  exact ⟨h.1, h.2.1⟩

/-- C6 counterexample: the schema response for the unknown tool "x" carries
the error Tool 'x' not found, which differs from the claimed string
Tool not found: x. -/
theorem C6_counterexample :
    (handleSocketRequest
        ⟨[("s", ⟨"s", "s", ⟨true, none, [⟨"a", "d", "sch"⟩]⟩, 0, 0⟩)], [], "default"⟩
        ⟨.error "unused", (fun _ => none), (fun _ _ => .error "unused"), 0⟩
        ⟨some "1", some "schema", some "s", some "x"⟩).1 =
      .ok ⟨some "1", false, none, some "Tool 'x' not found"⟩ ∧
    ("Tool 'x' not found" : String) ≠ "Tool not found: x" := by
  exact ⟨by decide, by decide⟩

/-- C9 (amended): a received line that JSON.parse rejects is answered with
a single error response with id null carrying the parse-error message —
it is not silently dropped — and the connection survives: the remaining
lines are processed exactly as they would be from the unchanged daemon
state. -/
theorem C9_malformed_line (d : DaemonState) (env : DaemonEnv) (emsg : String)
    (ls : List WireLine) :
    processLines env d (WireLine.malformed emsg :: ls) =
      (({ id := none, success := false, data := none, error := some emsg } : SocketResponse) ::
        (processLines env d ls).1,
       (processLines env d ls).2) := by
  simp [processLines, processLine]

/-- C9 counterexample: a malformed line elicits a written response (the
error response with id null), contradicting the claim that no response is
written for it. -/
theorem C9_counterexample :
    (processLine ⟨[], [], "default"⟩
        ⟨.error "unused", (fun _ => none), (fun _ _ => .error "unused"), 0⟩
        (.malformed "Unexpected token u in JSON at position 0")).1 =
      some ⟨none, false, none, some "Unexpected token u in JSON at position 0"⟩ ∧
    (processLine ⟨[], [], "default"⟩
        ⟨.error "unused", (fun _ => none), (fun _ _ => .error "unused"), 0⟩
        (.malformed "Unexpected token u in JSON at position 0")).1 ≠ none := by
  exact ⟨by decide, by decide⟩

/-- C7: evaluating StdioTransport.disconnect on a live child (pid 42, not
yet exited): the graceful SIGTERM is sent and the 2000 ms force-kill timer
is scheduled, but disconnect clears the process field synchronously, so
when the timer callback later reads that field it finds null and sends no
SIGKILL — the force-kill branch is unreachable, contradicting the claim
(and the adjacent source comment); the network-channel variant does close
its channel. -/
theorem C7_force_kill_unreachable :
    (disconnectStdio false ⟨some ⟨42, false⟩⟩).1 = ⟨none⟩ ∧
    (disconnectStdio false ⟨some ⟨42, false⟩⟩).2.1 = [(42, Sig.sigterm)] ∧
    (disconnectStdio false ⟨some ⟨42, false⟩⟩).2.2 = some 2000 ∧
    disconnectTimerCallback (disconnectStdio false ⟨some ⟨42, false⟩⟩).1 = [] ∧
    disconnectTimerCallback ⟨some ⟨42, false⟩⟩ = [(42, Sig.sigkill)] ∧
    disconnectSse ⟨true⟩ = ⟨false⟩ := by
  exact ⟨rfl, rfl, rfl, rfl, rfl, rfl⟩
